import Mathlib

/-!
Shallow embedding of `src/script.js`, a client-side page-enhancement script:

* an `IntersectionObserver` callback that adds the class `"visible"` to the
  target of every delivered entry whose `isIntersecting` field is true
  (lines 2–11),
* registration of every `.reveal` element with that observer at
  `{ threshold: 0.2 }` (lines 10 and 13),
* a one-shot year stamp `document.getElementById('year').textContent =
  new Date().getFullYear()` (line 15),
* a submit handler on `.upload-form` that calls `preventDefault()`, rewrites
  the button label and disables the button (lines 17–22).

DOM elements are modelled as records of the fields the script touches; the
document heap is a function from element references (naturals) to elements.
JavaScript property access on `null` (a selector that matched nothing) is
modelled as a `JsError.typeError` that aborts the remaining statements of
the script, exactly as an uncaught exception does.
-/

namespace Aiml

/-- The observable state of a DOM element, restricted to the fields that
`src/script.js` reads or writes: the class list, the text content and the
`disabled` flag. -/
structure Elem where
  classes : List String
  textContent : String
  disabled : Bool
  deriving Repr, DecidableEq

/-- `classList.add c`: the DOM token-list `add` appends the token only when
it is not already present (no duplicates are ever created by `add`). -/
def classListAdd (cs : List String) (c : String) : List String :=
  if c ∈ cs then cs else cs ++ [c]

/-- One `IntersectionObserverEntry` as consumed by the callback on
lines 4–8 of `src/script.js`: the target element reference and the
`isIntersecting` flag. -/
structure Entry where
  target : Nat
  isIntersecting : Bool
  deriving Repr, DecidableEq

/-- The document heap: element references to element states. -/
abbrev Dom := Nat → Elem

/-- `entry.target.classList.add('visible')` (line 6 of `src/script.js`)
applied to a single element state. -/
def revealElem (el : Elem) : Elem :=
  { el with classes := classListAdd el.classes "visible" }

/-- The body of the `entries.forEach` loop (lines 4–8 of `src/script.js`):
if `entry.isIntersecting` then add `"visible"` to the target's class list,
otherwise do nothing. -/
def processEntry (dom : Dom) (e : Entry) : Dom :=
  if e.isIntersecting then
    fun i => if i = e.target then revealElem (dom i) else dom i
  else dom

/-- The whole observer callback (lines 3–9 of `src/script.js`): fold the
entry handler over the delivered batch of entries in order. -/
def processEntries (dom : Dom) (es : List Entry) : Dom :=
  es.foldl processEntry dom

lemma mem_classListAdd_self (cs : List String) (c : String) :
    c ∈ classListAdd cs c := by
  unfold classListAdd
  split
  · assumption
  · simp

lemma mem_classListAdd_of_mem {cs : List String} {c : String} (d : String)
    (h : c ∈ cs) : c ∈ classListAdd cs d := by
  unfold classListAdd
  split
  · exact h
  · exact List.mem_append_left _ h

lemma classListAdd_of_mem {cs : List String} {c : String} (h : c ∈ cs) :
    classListAdd cs c = cs :=
  if_pos h

lemma revealElem_idem (el : Elem) : revealElem (revealElem el) = revealElem el := by
  unfold revealElem
  simp [classListAdd_of_mem (mem_classListAdd_self el.classes "visible")]

lemma processEntries_nil (dom : Dom) : processEntries dom [] = dom := rfl

lemma processEntries_cons (dom : Dom) (e : Entry) (es : List Entry) :
    processEntries dom (e :: es) = processEntries (processEntry dom e) es := rfl

lemma processEntry_true_apply_self (dom : Dom) (t : Nat) :
    processEntry dom { target := t, isIntersecting := true } t = revealElem (dom t) := by
  simp [processEntry]

lemma processEntry_apply_ne {dom : Dom} {i : Nat} (e : Entry) (h : i ≠ e.target) :
    processEntry dom e i = dom i := by
  unfold processEntry
  split
  · simp [h]
  · rfl

/-- Any class already present on any element survives one callback step. -/
lemma mem_classes_processEntry {dom : Dom} {i : Nat} {c : String} (e : Entry)
    (h : c ∈ (dom i).classes) : c ∈ (processEntry dom e i).classes := by
  unfold processEntry
  split
  · dsimp only
    split
    · exact mem_classListAdd_of_mem _ h
    · exact h
  · exact h

/-- Any class already present on any element survives a whole batch. -/
lemma mem_classes_processEntries {dom : Dom} {i : Nat} {c : String}
    (es : List Entry) (h : c ∈ (dom i).classes) :
    c ∈ (processEntries dom es i).classes := by
  induction es generalizing dom with
  | nil => exact h
  | cons e es ih => exact ih (mem_classes_processEntry e h)

/-- C1. Per-element visibility is monotonic: in any event sequence that
contains an `isIntersecting = true` event for element `t`, after that event
is processed `t` carries the `"visible"` class, and it still carries it
after every subsequent event regardless of that event's `isIntersecting`
value. -/
theorem visible_monotonic (dom : Dom) (t : Nat) (es es' : List Entry) :
    "visible" ∈
      (processEntries dom (es ++ { target := t, isIntersecting := true } :: es') t).classes := by
  unfold processEntries
  rw [List.foldl_append]
  show "visible" ∈
    (processEntries (processEntry (processEntries dom es) ⟨t, true⟩) es' t).classes
  apply mem_classes_processEntries
  rw [processEntry_true_apply_self]
  exact mem_classListAdd_self _ _

/-- C2. An intersection event with `isIntersecting = false` is a complete
no-op: the callback leaves the whole document heap — the target's class
list included, whether or not it already carries `"visible"` — exactly as
it was. -/
theorem false_event_noop (dom : Dom) (t : Nat) :
    processEntry dom { target := t, isIntersecting := false } = dom := rfl

/-- C4. Reveal is idempotent: processing two consecutive
`isIntersecting = true` events for the same element leaves the document in
exactly the state produced by processing one such event (in particular no
duplicate `"visible"` class entry is created). -/
theorem reveal_idempotent (dom : Dom) (t : Nat) :
    processEntry (processEntry dom { target := t, isIntersecting := true })
        { target := t, isIntersecting := true } =
      processEntry dom { target := t, isIntersecting := true } := by
  funext i
  by_cases h : i = t
  · subst h
    rw [processEntry_true_apply_self, processEntry_true_apply_self, revealElem_idem]
  · rw [processEntry_apply_ne _ h, processEntry_apply_ne _ h]

/-- C5. An element for which no `isIntersecting = true` event is ever
delivered never acquires the `"visible"` class: starting from a state in
which `t` does not carry it, after any batch whose events for `t` all have
`isIntersecting = false`, `t` still does not carry it. -/
theorem never_intersecting_stays_hidden (dom : Dom) (t : Nat) (es : List Entry)
    (h0 : "visible" ∉ (dom t).classes)
    (hnever : ∀ e ∈ es, e.target = t → e.isIntersecting = false) :
    "visible" ∉ (processEntries dom es t).classes := by
  induction es generalizing dom with
  | nil => exact h0
  | cons e es ih =>
    rw [processEntries_cons]
    have hstep : processEntry dom e t = dom t := by
      by_cases hi : e.isIntersecting
      · have ht : t ≠ e.target := by
          intro hT
          have := hnever e (List.mem_cons_self e es) hT.symm
          rw [this] at hi
          exact Bool.false_ne_true (hi ▸ rfl)
        exact processEntry_apply_ne e ht
      · simp [processEntry, hi]
    exact ih (processEntry dom e) (hstep ▸ h0)
      (fun e' he' => hnever e' (List.mem_cons_of_mem e he'))

/-- A concrete hidden element state: the markup class only. -/
def elem0 : Elem := { classes := ["reveal"], textContent := "", disabled := false }

/-- A concrete document heap in which every element is hidden. -/
def dom0 : Dom := fun _ => elem0

/-- A concrete batch: two non-intersecting events for element 0 around an
intersecting event for element 1. -/
def esNever : List Entry :=
  [{ target := 0, isIntersecting := false },
   { target := 1, isIntersecting := true },
   { target := 0, isIntersecting := false }]

/-- Witness for C5 at a concrete input: element 0 starts hidden, receives
only `isIntersecting = false` events in `esNever`, and stays hidden. -/
theorem never_intersecting_stays_hidden_witness :
    ("visible" ∉ (dom0 0).classes ∧
      (∀ e ∈ esNever, e.target = 0 → e.isIntersecting = false)) ∧
    "visible" ∉ (processEntries dom0 esNever 0).classes :=
  ⟨⟨by decide, by decide⟩,
    never_intersecting_stays_hidden dom0 0 esNever (by decide) (by decide)⟩

lemma processEntry_apply_cases (dom : Dom) (e : Entry) (i : Nat) :
    processEntry dom e i = dom i ∨ processEntry dom e i = revealElem (dom i) := by
  unfold processEntry
  split
  · dsimp only
    split
    · exact Or.inr rfl
    · exact Or.inl rfl
  · exact Or.inl rfl

lemma processEntries_apply_cases (dom : Dom) (es : List Entry) (i : Nat) :
    processEntries dom es i = dom i ∨ processEntries dom es i = revealElem (dom i) := by
  induction es generalizing dom with
  | nil => exact Or.inl rfl
  | cons e es ih =>
    rw [processEntries_cons]
    rcases processEntry_apply_cases dom e i with h | h <;>
      rcases ih (processEntry dom e) with h' | h' <;>
        rw [h'] <;> rw [h]
    · exact Or.inl rfl
    · exact Or.inr rfl
    · exact Or.inr rfl
    · exact Or.inr (by rw [revealElem_idem])

lemma processEntries_apply_of_not_target (dom : Dom) (es : List Entry) (i : Nat)
    (h : ∀ e ∈ es, e.isIntersecting = true → e.target ≠ i) :
    processEntries dom es i = dom i := by
  induction es generalizing dom with
  | nil => rfl
  | cons e es ih =>
    rw [processEntries_cons]
    have hstep : processEntry dom e i = dom i := by
      by_cases hi : e.isIntersecting
      · exact processEntry_apply_ne e
          (fun hit => h e (List.mem_cons_self e es) hi (hit ▸ rfl))
      · simp [processEntry, hi]
    rw [ih (processEntry dom e) (fun e' he' => h e' (List.mem_cons_of_mem e he')), hstep]

/-- C10. Frame property of the observer callback on a whole batch: an
element that is not the target of any intersecting entry is left completely
unchanged; no class of any element is ever removed; and the only possible
mutation of any element is that `"visible"` was added to its class list. -/
theorem callback_frame_property (dom : Dom) (es : List Entry) (i : Nat) :
    ((∀ e ∈ es, e.isIntersecting = true → e.target ≠ i) →
        processEntries dom es i = dom i) ∧
    (∀ c ∈ (dom i).classes, c ∈ (processEntries dom es i).classes) ∧
    (processEntries dom es i = dom i ∨
      processEntries dom es i = revealElem (dom i)) :=
  ⟨processEntries_apply_of_not_target dom es i,
    fun _ hc => mem_classes_processEntries es hc,
    processEntries_apply_cases dom es i⟩

/-- Witness for C10 at a concrete input: element 2 is the target of no
intersecting entry of `esNever`, so the batch leaves it unchanged, and its
classes are preserved. -/
theorem callback_frame_property_witness :
    ((∀ e ∈ esNever, e.isIntersecting = true → e.target ≠ 2) ∧
      processEntries dom0 esNever 2 = dom0 2) ∧
    ("reveal" ∈ (dom0 2).classes ∧
      "reveal" ∈ (processEntries dom0 esNever 2).classes) :=
  ⟨⟨by decide, (callback_frame_property dom0 esNever 2).1 (by decide)⟩,
    by decide, (callback_frame_property dom0 esNever 2).2.1 "reveal" (by decide)⟩

/-- A JavaScript runtime error. The only one this script can raise is the
`TypeError` thrown by a property access on `null`, when a selector matched
no node. -/
inductive JsError where
  | typeError
  deriving Repr, DecidableEq

/-- The document as the script finds it at load time:
`revealIds` is the node list returned by `querySelectorAll('.reveal')`
(line 1), `yearElem` is `getElementById('year')` (line 15) and `uploadForm`
is `querySelector('.upload-form')` (line 17), each `none` when no node
matches; `elems` is the element heap. -/
structure Page where
  revealIds : List Nat
  yearElem : Option Nat
  uploadForm : Option Nat
  elems : Dom

/-- The `threshold: 0.2` option passed to the `IntersectionObserver`
constructor on line 10 of `src/script.js`. -/
def observerThresholdOption : ℚ := 0.2

/-- `revealElements.forEach((element) => observer.observe(element))`
(line 13): the registration list built by observing each reveal element in
document order. -/
def observeAll (ids : List Nat) : List Nat :=
  ids.foldl (fun acc i => acc ++ [i]) []

/-- Assignment to `textContent` of one element of the heap. -/
def setText (dom : Dom) (i : Nat) (s : String) : Dom :=
  fun j => if j = i then { dom j with textContent := s } else dom j

/-- The script's state after the top-level statements have run (or stopped
at an uncaught error): the element heap, the observer's registration list
and threshold, and whether the submit listener got attached. -/
structure ScriptState where
  elems : Dom
  observed : List Nat
  threshold : ℚ
  submitHandlerBound : Bool

/-- The top-level run of `src/script.js` at load time, with the current
year `year` read from the system clock. Lines 1–13 build the observer at
threshold `0.2` and register every `.reveal` element. Line 15 assigns the
year to `document.getElementById('year').textContent`: when `yearElem` is
`none` this property access throws a `TypeError` and the remaining
statements do not run. Line 17 attaches the submit listener to
`document.querySelector('.upload-form')`: when `uploadForm` is `none` this
throws likewise. The returned pair is the state reached together with the
uncaught error, if any. -/
def runScript (page : Page) (year : Nat) : ScriptState × Option JsError :=
  let s0 : ScriptState :=
    { elems := page.elems
      observed := observeAll page.revealIds
      threshold := observerThresholdOption
      submitHandlerBound := false }
  match page.yearElem with
  | none => (s0, some JsError.typeError)
  | some yi =>
    let s1 := { s0 with elems := setText s0.elems yi (Nat.repr year) }
    match page.uploadForm with
    | none => (s1, some JsError.typeError)
    | some _ => ({ s1 with submitHandlerBound := true }, none)

/-- The literal confirmation label written on line 20 of `src/script.js`. -/
def submittedLabel : String := "Project Submitted ✓"

/-- The result of one dispatch of the submit handler: whether
`event.preventDefault()` ran, the element heap afterwards, and the uncaught
error, if any. -/
structure SubmitOutcome where
  defaultPrevented : Bool
  elems : Dom
  error : Option JsError

/-- The submit handler (lines 17–22 of `src/script.js`):
`event.preventDefault()`, then `event.target.querySelector('button')` —
`button` here — then the label assignment and `button.disabled = true`;
a missing button makes the label assignment throw a `TypeError`. -/
def handleSubmit (dom : Dom) (button : Option Nat) : SubmitOutcome :=
  match button with
  | none => { defaultPrevented := true, elems := dom, error := some JsError.typeError }
  | some b =>
    { defaultPrevented := true
      elems := fun i =>
        if i = b then { dom i with textContent := submittedLabel, disabled := true }
        else dom i
      error := none }

lemma observeAll_eq (ids : List Nat) : observeAll ids = ids := by
  suffices h : ∀ acc : List Nat, ids.foldl (fun acc i => acc ++ [i]) acc = acc ++ ids by
    simpa using h []
  induction ids with
  | nil => simp
  | cons i ids ih => intro acc; simp [List.foldl_cons, ih]

lemma runScript_threshold (page : Page) (y : Nat) :
    (runScript page y).1.threshold = observerThresholdOption := by
  unfold runScript
  rcases page.yearElem with _ | yi
  · rfl
  · rcases page.uploadForm with _ | fi <;> rfl

lemma runScript_observed (page : Page) (y : Nat) :
    (runScript page y).1.observed = observeAll page.revealIds := by
  unfold runScript
  rcases page.yearElem with _ | yi
  · rfl
  · rcases page.uploadForm with _ | fi <;> rfl

/-- C6. Dispatching the submit handler once, on a form whose button query
finds a button `b`, yields exactly: default action suppressed, `b`'s text
content equal to the literal `"Project Submitted ✓"`, `b` disabled, no
error — and nothing else: `b`'s class list and every other element are
unchanged. -/
theorem submit_once_effects (dom : Dom) (b : Nat) :
    (handleSubmit dom (some b)).defaultPrevented = true ∧
    ((handleSubmit dom (some b)).elems b).textContent = submittedLabel ∧
    ((handleSubmit dom (some b)).elems b).disabled = true ∧
    (handleSubmit dom (some b)).error = none ∧
    ((handleSubmit dom (some b)).elems b).classes = (dom b).classes ∧
    ∀ i, i = b ∨ (handleSubmit dom (some b)).elems i = dom i := by
  refine ⟨rfl, by simp [handleSubmit], by simp [handleSubmit], rfl,
    by simp [handleSubmit], fun i => ?_⟩
  by_cases h : i = b
  · exact Or.inl h
  · exact Or.inr (by simp [handleSubmit, h])

/-- C7. After a load in which the `year` node exists, its text content is
the decimal representation of the year read from the system clock, and for
any present-day year (between 1000 and 9999) that representation has
exactly four digits. -/
theorem year_stamp_four_digits (page : Page) (y yi : Nat)
    (hy : page.yearElem = some yi)
    (hlo : 1000 ≤ y) (hhi : y < 10000) :
    ((runScript page y).1.elems yi).textContent = Nat.repr y ∧
    (Nat.digits 10 y).length = 4 := by
  constructor
  · rcases hf : page.uploadForm with _ | fi <;>
      simp [runScript, hy, hf, setText]
  · have e3 : (10 : ℕ) ^ 3 = 1000 := by norm_num
    have e4 : (10 : ℕ) ^ (3 + 1) = 10000 := by norm_num
    have hlog : Nat.log 10 y = 3 :=
      Nat.log_eq_of_pow_le_of_lt_pow (e3 ▸ hlo) (e4 ▸ hhi)
    rw [Nat.digits_len 10 y (by norm_num) (by omega), hlog]

/-- A concrete page on which every selector matches. -/
def pageFull : Page :=
  { revealIds := [0, 1, 2], yearElem := some 10, uploadForm := some 11, elems := dom0 }

/-- Witness for C7 at a concrete input: on `pageFull` loaded in year 2026,
the `year` node's text is `"2026"`, a four-digit string. -/
theorem year_stamp_four_digits_witness :
    (pageFull.yearElem = some 10 ∧ 1000 ≤ 2026 ∧ 2026 < 10000) ∧
    ((runScript pageFull 2026).1.elems 10).textContent = Nat.repr 2026 ∧
    (Nat.digits 10 2026).length = 4 :=
  ⟨⟨rfl, by decide, by decide⟩,
    year_stamp_four_digits pageFull 2026 10 rfl (by decide) (by decide)⟩

/-- The platform's threshold semantics, as stated in the spec's glossary:
a ratio counts as intersecting exactly when it is at least the registered
threshold fraction. (The observation mechanism itself is a browser
primitive, not code of this repository; only the interpretation of the
registered value is modelled.) -/
def countsAsIntersecting (ratio threshold : ℚ) : Bool :=
  decide (threshold ≤ ratio)

/-- C8. The script registers every `.reveal` element with the one observer,
whose threshold option is `0.2`; under the registered threshold an element
counts as intersecting exactly when at least 20% (one fifth) of it is
within the viewport. -/
theorem threshold_registration (page : Page) (y : Nat) :
    (runScript page y).1.threshold = 0.2 ∧
    (runScript page y).1.observed = page.revealIds ∧
    ∀ r : ℚ, countsAsIntersecting r (runScript page y).1.threshold = true ↔ 1 / 5 ≤ r := by
  refine ⟨runScript_threshold page y, ?_, fun r => ?_⟩
  · rw [runScript_observed, observeAll_eq]
  · rw [runScript_threshold]
    have h : observerThresholdOption = 1 / 5 := by
      unfold observerThresholdOption; norm_num
    rw [h]
    simp [countsAsIntersecting]

/-- A concrete page with no `.reveal` element and both other selectors
matching. -/
def pageEmpty : Page :=
  { revealIds := [], yearElem := some 0, uploadForm := some 1, elems := dom0 }

/-- C9. Initializing with an empty set of revealable elements is a no-op:
no observation registration is created, no error is raised, and the rest
of the script still executes (year stamped, submit listener attached). -/
theorem empty_reveal_set_noop (page : Page) (y yi fi : Nat)
    (hrev : page.revealIds = [])
    (hy : page.yearElem = some yi)
    (hf : page.uploadForm = some fi) :
    (runScript page y).1.observed = [] ∧
    (runScript page y).2 = none ∧
    (runScript page y).1.submitHandlerBound = true ∧
    ((runScript page y).1.elems yi).textContent = Nat.repr y := by
  refine ⟨?_, ?_, ?_, ?_⟩ <;> simp [runScript, hy, hf, hrev, observeAll, setText]

/-- Witness for C9 at a concrete input: `pageEmpty` has no reveal elements;
loading it observes nothing, raises no error, binds the handler and stamps
the year. -/
theorem empty_reveal_set_noop_witness :
    (pageEmpty.revealIds = [] ∧ pageEmpty.yearElem = some 0 ∧
      pageEmpty.uploadForm = some 1) ∧
    ((runScript pageEmpty 2026).1.observed = [] ∧
      (runScript pageEmpty 2026).2 = none ∧
      (runScript pageEmpty 2026).1.submitHandlerBound = true ∧
      ((runScript pageEmpty 2026).1.elems 0).textContent = Nat.repr 2026) :=
  ⟨⟨rfl, rfl, rfl⟩, empty_reveal_set_noop pageEmpty 2026 0 1 rfl rfl rfl⟩

/-- A concrete page on which the `year` selector matches nothing while the
upload form exists. -/
def pageNoYear : Page :=
  { revealIds := [0], yearElem := none, uploadForm := some 1, elems := dom0 }

/-- C3 counterexample: on a page whose `year` node is missing, the load run
ends in an uncaught `TypeError` — a thrown failure, not silent tolerance —
and the form binding, whose own node does exist, is not attempted either. -/
theorem missing_year_throws :
    (runScript pageNoYear 2026).2 = some JsError.typeError ∧
    pageNoYear.uploadForm = some 1 ∧
    (runScript pageNoYear 2026).1.submitHandlerBound = false :=
  ⟨rfl, rfl, rfl⟩

/-- C3 amended: when the `year` selector matches nothing the script throws
a `TypeError` at line 15, leaving the heap untouched and the submit
listener unbound; when the form selector matches nothing the script throws
a `TypeError` at line 17 and the listener is not bound. The skipped
effects are not attempted, but by way of an uncaught exception, not silent
tolerance. -/
theorem missing_target_aborts_script (page : Page) (y : Nat) :
    (page.yearElem = none →
      (runScript page y).2 = some JsError.typeError ∧
      (runScript page y).1.submitHandlerBound = false ∧
      (runScript page y).1.elems = page.elems) ∧
    (page.uploadForm = none →
      (runScript page y).2 = some JsError.typeError ∧
      (runScript page y).1.submitHandlerBound = false) := by
  constructor
  · intro hy
    refine ⟨?_, ?_, ?_⟩ <;> simp [runScript, hy]
  · intro hf
    rcases hy : page.yearElem with _ | yi
    · exact ⟨by simp [runScript, hy], by simp [runScript, hy]⟩
    · exact ⟨by simp [runScript, hy, hf], by simp [runScript, hy, hf]⟩

/-- Witness for the amended C3 at a concrete input: `pageNoYear` misses the
`year` node, and its load run ends in a `TypeError` with the heap untouched
and the listener unbound. -/
theorem missing_target_aborts_script_witness :
    pageNoYear.yearElem = none ∧
    ((runScript pageNoYear 2026).2 = some JsError.typeError ∧
      (runScript pageNoYear 2026).1.submitHandlerBound = false ∧
      (runScript pageNoYear 2026).1.elems = pageNoYear.elems) :=
  ⟨rfl, (missing_target_aborts_script pageNoYear 2026).1 rfl⟩

end Aiml
